import Mathlib

/-!
Verification of the AUTOSAR ARXML element model and writer
(files src/autosar/xml/element.py and src/autosar/xml/writer.py).

The Python code is shallowly embedded: classes become structures or
inductive types, methods become pure functions, a Python `raise` becomes
the error case of an `Except PyErr` result, and in-place mutation of an
object becomes returning the updated value (paired with the pre-raise
state where a claim is about mutation on failure).  Python `float` values
only ever reach the formatting pipeline through `str(value)`, so a finite
float is embedded as the exact decimal value of its shortest round-trip
representation (a sign / coefficient / exponent triple, mirroring the
`decimal.Decimal` data model); infinities and NaN are separate tags.
-/

namespace Autosar

/-- Python exception kinds raised by the embedded code. -/
inductive PyErr where
  | typeError
  | valueError
  | indexError
  | notImplementedError
  | invalidOperation
  | assertionError
  | overflowError
deriving DecidableEq, Repr

deriving instance DecidableEq for Except

/-- Modelled from the spec: the destination-kind enumeration
`ar_enum.IdentifiableSubTypes` lives in the (absent) enumeration module;
the spec calls it a closed enumeration of referencable sub-types.  The
members listed here are the ones element.py references. -/
inductive IdentifiableSubTypes where
  | ABSTRACT_IMPLEMENTATION_DATA_TYPE
  | APPLICATION_ARRAY_DATA_TYPE
  | APPLICATION_ASSOC_MAP_DATA_TYPE
  | APPLICATION_COMPOSITE_DATA_TYPE
  | APPLICATION_DATA_TYPE
  | APPLICATION_DEFERRED_DATA_TYPE
  | APPLICATION_PRIMITIVE_DATA_TYPE
  | APPLICATION_RECORD_DATA_TYPE
  | AUTOSAR_DATA_TYPE
  | BSW_MODULE_ENTRY
  | COMPU_METHOD
  | CONSTANT_SPECIFICATION
  | DATA_CONSTR
  | IMPLEMENTATION_DATA_TYPE
  | PHYSICAL_DIMENSION
  | SW_ADDR_METHOD
  | SW_BASE_TYPE
  | UNIT
deriving DecidableEq, Repr

/-- Modelled from the spec: `ar_enum.ValueFormat` (absent enumeration
module); the format tags used by `NumericalValue` and the writer. -/
inductive ValueFormat where
  | DEFAULT
  | DECIMAL
  | HEXADECIMAL
  | BINARY
  | SCIENTIFIC
deriving DecidableEq, Repr

/-- Modelled from the spec: `ar_enum.IntervalType` (absent enumeration
module); open/closed interval tags on limits. -/
inductive IntervalType where
  | CLOSED
  | OPEN
deriving DecidableEq, Repr

/-! ## Reference subsystem (element.py, `BaseRef` and subclasses) -/

/-- A constructed `CompuMethodRef`: the stored path string and the stored
destination kind (element.py lines 366-374 store both fields). -/
structure CompuMethodRefE where
  value : String
  dest : IdentifiableSubTypes
deriving DecidableEq, Repr

/-- `BaseRef.__init__` specialised to `CompuMethodRef._accepted_subtypes`
(element.py lines 366-374 and 388-398): stores the path, then admits
`dest` only if it lies in the accepted set `{COMPU_METHOD}`, otherwise
raises `ValueError`.  The path string is never inspected. -/
def compuMethodRefBase (value : String) (dest : IdentifiableSubTypes) :
    Except PyErr CompuMethodRefE :=
  if dest = IdentifiableSubTypes.COMPU_METHOD then
    Except.ok { value := value, dest := dest }
  else
    Except.error PyErr.valueError

/-- `CompuMethodRef.__init__` (element.py lines 393-394): delegates to
`BaseRef.__init__` with the fixed destination kind `COMPU_METHOD`. -/
def compuMethodRefInit (value : String) : Except PyErr CompuMethodRefE :=
  compuMethodRefBase value IdentifiableSubTypes.COMPU_METHOD

/-- `BaseRef.__str__` (element.py lines 383-385): string conversion of a
reference returns the stored path. -/
def CompuMethodRefE.str (r : CompuMethodRefE) : String :=
  r.value

/-! ## Unit construction (element.py, `Unit.__init__`) -/

/-- `SingleLanguageUnitNames`: its `parts` list.  Parts appended by the
code in scope are single-character strings (a `str` argument is iterated
character by character by `SingleLanguageUnitNames.__init__`). -/
structure SingleLanguageUnitNamesE where
  parts : List String
deriving DecidableEq, Repr

/-- `SingleLanguageUnitNames(display_name)` for a `str` argument
(element.py lines 1085-1092): a string is `Iterable`, so each character
is appended as an individual part. -/
def singleLanguageUnitNamesOfStr (s : String) : SingleLanguageUnitNamesE :=
  { parts := s.data.map (fun c => String.singleton c) }

/-- The dynamic value stored in `PhysicalDimensionRef.value`:
`BaseRef.__init__` performs no type check on `value`, so the buggy call
`PhysicalDimensionRef(display_name)` in `Unit.__init__` can store a
string, `None`, or a `SingleLanguageUnitNames` object. -/
inductive PdValue where
  | ofStr (s : String)
  | ofNone
  | ofSingleLanguageUnitNames (n : SingleLanguageUnitNamesE)
deriving DecidableEq, Repr

/-- A constructed `PhysicalDimensionRef` (element.py lines 466-476):
accepted set is `{PHYSICAL_DIMENSION}`, which the class constructor
always passes, so construction never raises. -/
structure PhysicalDimensionRefE where
  value : PdValue
  dest : IdentifiableSubTypes
deriving DecidableEq, Repr

/-- `PhysicalDimensionRef.__init__` (element.py lines 471-472). -/
def physicalDimensionRefInit (value : PdValue) : PhysicalDimensionRefE :=
  { value := value, dest := IdentifiableSubTypes.PHYSICAL_DIMENSION }

/-- The `display_name` argument of `Unit.__init__`: a string or an
existing `SingleLanguageUnitNames` instance (any other type raises). -/
inductive DisplayNameArg where
  | ofStr (s : String)
  | ofObj (n : SingleLanguageUnitNamesE)
  | otherType
deriving DecidableEq, Repr

/-- The `physical_dimension_ref` argument of `Unit.__init__`: a string or
an existing `PhysicalDimensionRef` instance (any other type raises). -/
inductive PdRefArg where
  | ofStr (s : String)
  | ofRef (r : PhysicalDimensionRefE)
  | otherType
deriving DecidableEq, Repr

/-- The fields of a constructed `Unit` used by the claims. -/
structure UnitE where
  name : String
  display_name : Option SingleLanguageUnitNamesE
  physical_dimension_ref : Option PhysicalDimensionRefE
  factor : Option ℚ
  offset : Option ℚ
deriving DecidableEq, Repr

/-- Projection of the original `display_name` argument as it reaches the
expression `PhysicalDimensionRef(display_name)` on element.py line 1634
(by then `display_name` has passed the type check, so it is a string, an
instance, or `None`). -/
def pdValueOfDisplayName : Option DisplayNameArg → PdValue
  | none => PdValue.ofNone
  | some (DisplayNameArg.ofStr s) => PdValue.ofStr s
  | some (DisplayNameArg.ofObj n) => PdValue.ofSingleLanguageUnitNames n
  | some DisplayNameArg.otherType => PdValue.ofNone

/-- `Unit.__init__` (element.py lines 1614-1640).  Faithful order: the
`display_name` branch runs first (raising `TypeError` on a bad type),
then the `physical_dimension_ref` branch; in the string case the latter
builds `PhysicalDimensionRef(display_name)` from the ORIGINAL
`display_name` variable, not from the `physical_dimension_ref` argument
(source line 1634). -/
def unitInit (name : String)
    (display_name : Option DisplayNameArg)
    (factor offset : Option ℚ)
    (physical_dimension_ref : Option PdRefArg) :
    Except PyErr UnitE := do
  let dn : Option SingleLanguageUnitNamesE ←
    match display_name with
    | none => pure none
    | some (DisplayNameArg.ofStr s) => pure (some (singleLanguageUnitNamesOfStr s))
    | some (DisplayNameArg.ofObj n) => pure (some n)
    | some DisplayNameArg.otherType => Except.error PyErr.typeError
  let pdr : Option PhysicalDimensionRefE ←
    match physical_dimension_ref with
    | none => pure none
    | some (PdRefArg.ofStr _) =>
        pure (some (physicalDimensionRefInit (pdValueOfDisplayName display_name)))
    | some (PdRefArg.ofRef r) => pure (some r)
    | some PdRefArg.otherType => Except.error PyErr.typeError
  pure { name := name
         display_name := dn
         physical_dimension_ref := pdr
         factor := factor
         offset := offset }

/-! ## Reference-path derivation (element.py, `CompuMethod.ref` and
`Package.update_ref_parts`) -/

/-- The parent chain of an owned object, innermost package first.
`Package.update_ref_parts` (element.py lines 2936-2941) unconditionally
recurses into its own parent, so a chain usable by `ref()` must terminate
at the document; a root package whose `parent` is `None` would crash with
`AttributeError` in Python and is outside every claim. -/
inductive ParentChain where
  | doc
  | pkg (name : String) (rest : ParentChain)
deriving DecidableEq, Repr

/-- `Package.update_ref_parts` (element.py lines 2936-2941): append the
package name, then recurse into the parent.  The `doc` case is modelled
from the spec: the document terminates the walk without contributing a
segment, so that the joined path for `/A/B/C` is the short names from
root to object (spec sections 3 and 4.3: path for element C in package
/A/B equals "A/B/C"); `Document` itself is not part of src/. -/
def updateRefParts : ParentChain → List String → List String
  | ParentChain.doc, refParts => refParts
  | ParentChain.pkg name rest, refParts => updateRefParts rest (refParts ++ [name])

/-- The fields of a `CompuMethod` relevant to `ref()`: its short name and
its current parent (the back-pointer set by `Package.append`). -/
structure CompuMethodE where
  name : String
  parent : Option ParentChain
deriving DecidableEq, Repr

/-- `CompuMethod.ref` (element.py lines 1355-1364): `None` when there is
no parent; otherwise collect the short names by walking parent links,
reverse, join with "/", and wrap in a fresh `CompuMethodRef`. -/
def CompuMethodE.ref (cm : CompuMethodE) : Option CompuMethodRefE :=
  match cm.parent with
  | none => none
  | some chain =>
      some { value := String.intercalate "/" (updateRefParts chain [cm.name]).reverse
             dest := IdentifiableSubTypes.COMPU_METHOD }

/-- Root-to-leaf list of package short names of a parent chain (the
specification-side description of the path: the names from the document
root down to the owning package). -/
def chainNames : ParentChain → List String
  | ParentChain.doc => []
  | ParentChain.pkg name rest => chainNames rest ++ [name]

/-! ## Package container (element.py, `Package`) -/

/-- An `ARElement` as stored in a package: its short name and the parent
back-pointer, projected to the owning package name (the pointer is used
only for path computation and is set by `Package.append`). -/
structure ARElementE where
  name : String
  parentName : Option String
deriving DecidableEq, Repr

mutual

/-- `Package` (element.py lines 2860-2869): short name, parent
back-pointer (projected to the parent package name), the `elements`
list, the `packages` list, and `_collection_map` (a Python dict keyed by
short name, embedded as an insertion-ordered association list). -/
inductive PackageE where
  | mk (name : String) (parentName : Option String)
      (elements : List ARElementE)
      (packages : List PackageE)
      (collectionMap : List (String × CollItem))

/-- The values of `_collection_map`: a sub-package or an element. -/
inductive CollItem where
  | pkgV (p : PackageE)
  | elemV (e : ARElementE)

end

/-- Field accessor for the package short name. -/
def PackageE.name : PackageE → String
  | PackageE.mk n _ _ _ _ => n

/-- Field accessor for the parent back-pointer projection. -/
def PackageE.parentName : PackageE → Option String
  | PackageE.mk _ pn _ _ _ => pn

/-- Field accessor for the `elements` list. -/
def PackageE.elements : PackageE → List ARElementE
  | PackageE.mk _ _ es _ _ => es

/-- Field accessor for the `packages` list. -/
def PackageE.packages : PackageE → List PackageE
  | PackageE.mk _ _ _ ps _ => ps

/-- Field accessor for `_collection_map`. -/
def PackageE.collectionMap : PackageE → List (String × CollItem)
  | PackageE.mk _ _ _ _ m => m

/-- The key set of `_collection_map` (what `name in self._collection_map`
tests in Python). -/
def PackageE.keys (p : PackageE) : List String :=
  p.collectionMap.map Prod.fst

/-- `package.parent = self`: the sub-package with its back-pointer set. -/
def PackageE.withParent (p : PackageE) (parent : String) : PackageE :=
  match p with
  | PackageE.mk n _ es ps m => PackageE.mk n (some parent) es ps m

/-- The argument of `Package.append`: a `Package`, an `ARElement`, or any
other object (which hits the final `TypeError` branch). -/
inductive AppendItem where
  | pkgArg (p : PackageE)
  | elemArg (e : ARElementE)
  | otherArg

/-- The short name of a proper append argument. -/
def AppendItem.shortName : AppendItem → Option String
  | AppendItem.pkgArg p => some p.name
  | AppendItem.elemArg e => some e.name
  | AppendItem.otherArg => none

/-- `Package.append` (element.py lines 2871-2892).  The result pairs the
call outcome with the package state after the call: both raising branches
test the short name against `_collection_map` before any mutation, so on
`ValueError`/`TypeError` the state is the unchanged input package; on
success the item (with its parent pointer set) is appended to the proper
list and inserted into the map. -/
def packageAppend (p : PackageE) (item : AppendItem) :
    Except PyErr Unit × PackageE :=
  match item with
  | AppendItem.pkgArg q =>
      if q.name ∈ p.keys then
        (Except.error PyErr.valueError, p)
      else
        let q2 := q.withParent p.name
        (Except.ok (),
         PackageE.mk p.name p.parentName p.elements (p.packages ++ [q2])
           (p.collectionMap ++ [(q.name, CollItem.pkgV q2)]))
  | AppendItem.elemArg e =>
      if e.name ∈ p.keys then
        (Except.error PyErr.valueError, p)
      else
        let e2 : ARElementE := { e with parentName := some p.name }
        (Except.ok (),
         PackageE.mk p.name p.parentName (p.elements ++ [e2]) p.packages
           (p.collectionMap ++ [(e.name, CollItem.elemV e2)]))
  | AppendItem.otherArg => (Except.error PyErr.typeError, p)

/-- What `Package.create_package` returns: either a `ValueError`
EXCEPTION OBJECT returned as an ordinary value (source line 2916 reads
`return ValueError(...)`, not `raise`), or the newly created
sub-package. -/
inductive CreateReturn where
  | valueErrorObject
  | newPackage (p : PackageE)

/-- `Package.create_package` (element.py lines 2911-2921), result paired
with the post-call package state.  The function body contains no `raise`:
on a duplicate name it RETURNS a `ValueError` instance and performs no
mutation; otherwise it creates `Package(name)`, inserts it into
`_collection_map`, appends it to `packages`, sets its parent, and
returns it. -/
def createPackage (p : PackageE) (name : String) :
    CreateReturn × PackageE :=
  if name ∈ p.keys then
    (CreateReturn.valueErrorObject, p)
  else
    let q := PackageE.mk name (some p.name) [] [] []
    (CreateReturn.newPackage q,
     PackageE.mk p.name p.parentName p.elements (p.packages ++ [q])
       (p.collectionMap ++ [(name, CollItem.pkgV q)]))

/-! ## Value-specification builder (element.py,
`ValueSpecification.make_value`) -/

/-- The numeric payload of a `NumericalValueSpecification`: a Python
`int` or `float` (the float embedded by its exact value; the builder
only stores it). -/
inductive NumVal where
  | ofInt (n : ℤ)
  | ofFloat (q : ℚ)
deriving DecidableEq, Repr

/-- Plain Python data accepted by `make_value`: numbers, strings, `None`,
lists and tuples, nested arbitrarily. -/
inductive PyData where
  | ofInt (n : ℤ)
  | ofFloat (q : ℚ)
  | ofStr (s : String)
  | noneVal
  | ofList (xs : List PyData)
  | ofTuple (xs : List PyData)

/-- The closed tagged union of value-specification variants produced by
the builder (element.py classes TextValueSpecification,
NumericalValueSpecification, NotAvailableValueSpecification,
ArrayValueSpecification, RecordValueSpecification). -/
inductive VSpec where
  | text (label : Option String) (value : String)
  | numerical (label : Option String) (value : NumVal)
  | notAvailable (label : Option String) (default_pattern : Option PyData)
  | array (label : Option String) (elements : List VSpec)
  | record (label : Option String) (fields : List VSpec)

/-- Python `str.upper()` restricted to the ASCII range (the
discriminator aliases compared against are ASCII): upper-case every
character. -/
def pyUpper (s : String) : String :=
  String.mk (s.data.map Char.toUpper)

/-- `NotAvailableValueSpecification.__init__` (element.py lines
2618-2627): raises `ValueError` only for a negative `int` pattern; any
other pattern value is stored as given. -/
def notAvailableInit (label : Option String) (dp : Option PyData) :
    Except PyErr VSpec :=
  match dp with
  | some (PyData.ofInt n) =>
      if n < 0 then Except.error PyErr.valueError
      else Except.ok (VSpec.notAvailable label dp)
  | _ => Except.ok (VSpec.notAvailable label dp)

mutual

/-- `ValueSpecification.make_value` (element.py lines 2531-2548): a tuple
argument is unpacked as `(label, value)` or `(label, value,
default_pattern)` after checking that its first element is a string
(an empty tuple hits the `data[0]` subscript and raises `IndexError`;
other lengths raise `ValueError`); any other argument is the value
itself with no label. -/
def makeValue : PyData → Except PyErr VSpec
  | PyData.ofTuple xs =>
      match xs with
      | [] => Except.error PyErr.indexError
      | x :: rest =>
          match x with
          | PyData.ofStr s =>
              match rest with
              | [v] => makeFromArgs (some s) v none
              | [v, dp] => makeFromArgs (some s) v (some dp)
              | _ => Except.error PyErr.valueError
          | _ => Except.error PyErr.typeError
  | PyData.ofInt n => makeFromArgs none (PyData.ofInt n) none
  | PyData.ofFloat q => makeFromArgs none (PyData.ofFloat q) none
  | PyData.ofStr s => makeFromArgs none (PyData.ofStr s) none
  | PyData.noneVal => makeFromArgs none PyData.noneVal none
  | PyData.ofList xs => makeFromArgs none (PyData.ofList xs) none
termination_by d => (sizeOf d, 1)


/-- `ValueSpecification._make_from_args` (element.py lines 2550-2570):
dispatch on the runtime type of `value`; a list requires a string head
that upper-cases to an array alias ("A"/"ARRAY") or a record alias
("R"/"RECORD"), the remaining items being built recursively; an empty
list hits `value[0]` and raises `IndexError`; an unrecognized string
head raises `ValueError`; a non-string head raises `TypeError`; a value
of any unsupported type raises `TypeError`. -/
def makeFromArgs (label : Option String) (value : PyData)
    (default_pattern : Option PyData) : Except PyErr VSpec :=
  match value with
  | PyData.ofInt n => Except.ok (VSpec.numerical label (NumVal.ofInt n))
  | PyData.ofFloat q => Except.ok (VSpec.numerical label (NumVal.ofFloat q))
  | PyData.ofStr s => Except.ok (VSpec.text label s)
  | PyData.noneVal => notAvailableInit label default_pattern
  | PyData.ofList [] => Except.error PyErr.indexError
  | PyData.ofList (PyData.ofStr s :: rest) =>
      if pyUpper s = "A" ∨ pyUpper s = "ARRAY" then
        (fun es => VSpec.array label es) <$> makeList rest
      else if pyUpper s = "R" ∨ pyUpper s = "RECORD" then
        (fun fs => VSpec.record label fs) <$> makeList rest
      else Except.error PyErr.valueError
  | PyData.ofList (PyData.ofInt _ :: _) => Except.error PyErr.typeError
  | PyData.ofList (PyData.ofFloat _ :: _) => Except.error PyErr.typeError
  | PyData.ofList (PyData.noneVal :: _) => Except.error PyErr.typeError
  | PyData.ofList (PyData.ofList _ :: _) => Except.error PyErr.typeError
  | PyData.ofList (PyData.ofTuple _ :: _) => Except.error PyErr.typeError
  | PyData.ofTuple _ => Except.error PyErr.typeError
termination_by (sizeOf value, 0)


/-- `_make_array_value_spefication` / `_make_record_value_spefication`
(element.py lines 2572-2584): build each remaining list item with
`make_value`, in order, propagating the first error. -/
def makeList : List PyData → Except PyErr (List VSpec)
  | [] => Except.ok []
  | x :: xs => do
      let v ← makeValue x
      let vs ← makeList xs
      pure (v :: vs)
termination_by xs => (sizeOf xs, 2)


end

/-! ## Digit strings

Fueled digit-list builders (mirroring Python `str`/`format` digit
output); the fuel is always at least the digit count, and the fueled
shape keeps them reducible by the kernel. -/

/-- The character of a single decimal digit (codepoint 48 + d). -/
def digitChar (d : ℕ) : Char :=
  Char.ofNat (48 + d)

/-- The character of a single lowercase hexadecimal digit. -/
def hexDigitChar (d : ℕ) : Char :=
  if d < 10 then Char.ofNat (48 + d) else Char.ofNat (87 + d)

/-- Most-significant-first digit characters of `n` in the given base,
accumulated onto `acc`. -/
def natDigitsAux (base : ℕ) (digitF : ℕ → Char) :
    ℕ → ℕ → List Char → List Char
  | 0, _, acc => acc
  | fuel + 1, n, acc =>
      if n < base then digitF n :: acc
      else natDigitsAux base digitF fuel (n / base) (digitF (n % base) :: acc)

/-- Decimal digit characters of a natural number (`str(n)` for n ≥ 0). -/
def natDigits10 (n : ℕ) : List Char :=
  natDigitsAux 10 digitChar (n + 1) n []

/-- `str(i)` for a Python int. -/
def intStr (i : ℤ) : String :=
  (if i < 0 then "-" else "") ++ String.mk (natDigits10 i.natAbs)

/-- Python `format(i, "x")`: lowercase hex digits, sign in front. -/
def intHexStr (i : ℤ) : String :=
  (if i < 0 then "-" else "") ++
    String.mk (natDigitsAux 16 hexDigitChar (i.natAbs + 1) i.natAbs [])

/-- Python `format(i, "b")`: binary digits, sign in front. -/
def intBinStr (i : ℤ) : String :=
  (if i < 0 then "-" else "") ++
    String.mk (natDigitsAux 2 digitChar (i.natAbs + 1) i.natAbs [])

/-! ## Decimal arithmetic (the slice of Python `decimal` used by
`_XMLWriter._format_float`)

A `decimal.Decimal` is a sign / coefficient / exponent triple denoting
`(-1)^sign * coeff * 10^exp`.  `decimal.Decimal(str(f))` for a finite
Python float parses the shortest round-trip representation of `f`
exactly, so its coefficient has at most 17 significant digits — below
the default context precision of 28, which means `normalize` never has
to round and `quantize` fails exactly when the integral value needs more
than 28 digits. -/

/-- A finite `decimal.Decimal` value. -/
structure Dec where
  negSign : Bool
  coeff : ℕ
  exp : ℤ
deriving DecidableEq, Repr

/-- The exact rational value of a decimal. -/
def Dec.toQ (d : Dec) : ℚ :=
  (if d.negSign then -1 else 1) * (d.coeff : ℚ) * (10 : ℚ) ^ d.exp

/-- `tmp == tmp.to_integral()`: a decimal compares equal to its rounded
integral value exactly when its value is an integer. -/
def Dec.isIntegral (d : Dec) : Bool :=
  d.toQ.den == 1

/-- IEEE 754 / `decimal` default rounding: round to nearest, ties to
even. -/
def roundHalfEven (q : ℚ) : ℤ :=
  if q - (⌊q⌋ : ℚ) = 1 / 2 then (if 2 ∣ ⌊q⌋ then ⌊q⌋ else ⌊q⌋ + 1)
  else round q

/-- `tmp.quantize(decimal.Decimal(1))` under the default context
(precision 28, ROUND_HALF_EVEN, InvalidOperation trapped): the value
rounded to exponent 0, raising `InvalidOperation` when the resulting
coefficient has more than 28 digits. -/
def quantizeOne (d : Dec) : Except PyErr Dec :=
  let r := roundHalfEven d.toQ
  if 28 < (natDigits10 r.natAbs).length then Except.error PyErr.invalidOperation
  else Except.ok { negSign := d.negSign, coeff := r.natAbs, exp := 0 }

/-- Strip factors of 10 out of the coefficient, bumping the exponent
(the digit-stripping loop of `Decimal.normalize`; the fuel argument is
always at least the digit count). -/
def stripZerosAux : ℕ → ℕ → ℤ → ℕ × ℤ
  | 0, c, e => (c, e)
  | fuel + 1, c, e =>
      if c ≠ 0 ∧ c % 10 = 0 then stripZerosAux fuel (c / 10) (e + 1)
      else (c, e)

/-- `tmp.normalize()` for a coefficient within context precision (always
the case for `Decimal(str(f))`): a zero collapses to exponent 0, any
other value has trailing zeros stripped from its coefficient; the value
is unchanged. -/
def normalizeD (d : Dec) : Dec :=
  if d.coeff = 0 then { d with exp := 0 }
  else
    let ce := stripZerosAux d.coeff d.coeff d.exp
    { d with coeff := ce.1, exp := ce.2 }

/-- `Decimal.__str__`: plain positional notation when the exponent is
non-positive and the adjusted exponent is at least -6, otherwise
scientific notation with a one-digit integer part. -/
def renderDec (d : Dec) : String :=
  let ds := natDigits10 d.coeff
  let len : ℤ := (ds.length : ℤ)
  let leftdigits : ℤ := d.exp + len
  let plain : Bool := decide (d.exp ≤ 0 ∧ -6 < leftdigits)
  let dotplace : ℤ := if plain then leftdigits else 1
  let body : String :=
    if dotplace ≤ 0 then
      "0." ++ String.mk (List.replicate (-dotplace).toNat (digitChar 0)) ++ String.mk ds
    else if len ≤ dotplace then
      String.mk ds ++ String.mk (List.replicate (dotplace - len).toNat (digitChar 0))
    else
      String.mk (ds.take dotplace.toNat) ++ "." ++ String.mk (ds.drop dotplace.toNat)
  let exppart : String :=
    if plain then ""
    else "E" ++ (if 0 ≤ leftdigits - 1 then "+" else "-") ++
      String.mk (natDigits10 (leftdigits - 1).natAbs)
  (if d.negSign then "-" else "") ++ body ++ exppart

/-! ## Float formatting (writer.py, `_XMLWriter._format_float`) -/

/-- A Python float as it reaches `_format_float`: an infinity, a NaN, or
a finite value embedded by the exact decimal denoted by `str(f)` (the
shortest representation that parses back to `f`). -/
inductive PyFloatRepr where
  | inf
  | neginf
  | nan
  | finite (d : Dec)
deriving DecidableEq, Repr

/-- What `_format_float` returns: a `str` for the special values, a
`decimal.Decimal` OBJECT otherwise (the annotated return type `str`
notwithstanding; callers rely on f-string interpolation calling
`str()`). -/
inductive FormatFloatResult where
  | asStr (s : String)
  | asDec (d : Dec)
deriving DecidableEq, Repr

/-- `_XMLWriter._format_float` (writer.py lines 131-142): infinities map
to INF and -INF, NaN to NaN; an integral-valued decimal is quantized to
exponent 0 (which raises `decimal.InvalidOperation` when more than 28
digits would be needed), any other value is normalized. -/
def formatFloat : PyFloatRepr → Except PyErr FormatFloatResult
  | PyFloatRepr.inf => Except.ok (FormatFloatResult.asStr "INF")
  | PyFloatRepr.neginf => Except.ok (FormatFloatResult.asStr "-INF")
  | PyFloatRepr.nan => Except.ok (FormatFloatResult.asStr "NaN")
  | PyFloatRepr.finite d =>
      if d.isIntegral then (quantizeOne d).map FormatFloatResult.asDec
      else Except.ok (FormatFloatResult.asDec (normalizeD d))

/-- `str()` of a `_format_float` result, as applied by the f-strings of
the content writers. -/
def formatFloatText : FormatFloatResult → String
  | FormatFloatResult.asStr s => s
  | FormatFloatResult.asDec d => renderDec d

/-! ## Numerical value wrappers (element.py `NumericalValue`, writer.py
`_XMLWriter._format_number` and `_format_numerical_value`) -/

/-- The value stored in a `NumericalValue` after `_validate_value`: a
Python int or float (a string argument would have been parsed into one
of these two). -/
inductive NumValue where
  | ofInt (n : ℤ)
  | ofFloat (f : PyFloatRepr)
deriving DecidableEq, Repr

/-- A constructed `NumericalValue` (element.py lines 33-48).  For an int
or float argument the format tag is stored exactly as passed (the
prefix-based inference of HEXADECIMAL/BINARY applies only to string
arguments). -/
structure NumericalValueE where
  value : NumValue
  value_format : ValueFormat
deriving DecidableEq, Repr

/-- `NumericalValue.__init__` for an int or float argument (element.py
lines 38-48): the value is stored unchanged and the caller's format tag
is kept. -/
def numericalValueInit (value : NumValue) (value_format : ValueFormat) :
    NumericalValueE :=
  { value := value, value_format := value_format }

/-- What `_format_numerical_value` returns: a `str`, a `decimal.Decimal`
object (propagated from `_format_float` in the DEFAULT/DECIMAL float
case), or the e-notation of a float.  The last depends on the binary
value of the double rather than on its shortest decimal representation,
so it is carried unevaluated; no theorem below inspects it. -/
inductive NVOut where
  | asStr (s : String)
  | asDec (d : Dec)
  | floatSci (f : PyFloatRepr)
deriving DecidableEq, Repr

/-- Bit length of a natural number, fueled (fuel is always at least the
recursion depth). -/
def natBitsAux : ℕ → ℕ → ℕ
  | 0, _ => 0
  | fuel + 1, a => if a = 0 then 0 else natBitsAux fuel (a / 2) + 1

/-- Bit length of a natural number. -/
def natBits (a : ℕ) : ℕ :=
  natBitsAux (a + 1) a

/-- Python `float(n)` for an int: round the magnitude to 53 significant
bits (to nearest, ties to even); the result of a successful conversion
is itself an integer, returned exactly; a rounded magnitude of 2^1024
or more raises `OverflowError`.  This is the conversion
`int.__format__` performs before applying the `e` format code. -/
def floatOfInt (n : ℤ) : Except PyErr ℤ :=
  let a := n.natAbs
  let k := natBits a
  if k ≤ 53 then Except.ok n
  else
    let s := k - 53
    let q := a / 2 ^ s
    let r := a % 2 ^ s
    let half := 2 ^ (s - 1)
    let m := if half < r ∨ (r = half ∧ q % 2 = 1) then q + 1 else q
    let v := m * 2 ^ s
    if 2 ^ 1024 ≤ v then Except.error PyErr.overflowError
    else Except.ok ((if n < 0 then -1 else 1) * (v : ℤ))

/-- Formatting an integer-valued double with the `e` format code and
the default precision: seven significant digits (correctly rounded from
the exact value, ties to even), one before the point, a sign and an at
least two-digit exponent. -/
def intENotation (i : ℤ) : String :=
  if i = 0 then "0.000000e+00"
  else
    let ds := natDigits10 i.natAbs
    let k : ℕ := ds.length - 1
    let m : ℕ :=
      if ds.length ≤ 7 then i.natAbs * 10 ^ (7 - ds.length)
      else
        let p := 10 ^ (ds.length - 7)
        let q := i.natAbs / p
        let r := i.natAbs % p
        if p < 2 * r ∨ (2 * r = p ∧ q % 2 = 1) then q + 1 else q
    let mk2 : ℕ × ℕ := if m = 10 ^ 7 then (10 ^ 6, k + 1) else (m, k)
    let md := natDigits10 mk2.1
    let expDigits := natDigits10 mk2.2
    let expStr := if expDigits.length < 2 then String.mk (digitChar 0 :: expDigits)
      else String.mk expDigits
    (if i < 0 then "-" else "") ++ String.mk (md.take 1) ++ "." ++
      String.mk (md.drop 1) ++ "e+" ++ expStr

/-- `_XMLWriter._format_number` (writer.py lines 144-155) restricted to
int and float arguments: ints via `str`, floats via `_format_float`. -/
def formatNumber : NumValue → Except PyErr NVOut
  | NumValue.ofInt n => Except.ok (NVOut.asStr (intStr n))
  | NumValue.ofFloat f =>
      (formatFloat f).map (fun r =>
        match r with
        | FormatFloatResult.asStr s => NVOut.asStr s
        | FormatFloatResult.asDec d => NVOut.asDec d)

/-- `_XMLWriter._format_numerical_value` (writer.py lines 164-174):
DEFAULT and DECIMAL delegate to `_format_number`; HEXADECIMAL and BINARY
interpolate with the `x` and `b` format codes, which render 0x- and
0b-prefixed lowercase literals for ints but raise `ValueError` for a
float value (Python: unknown format code for float); SCIENTIFIC uses
the `e` format code: an int is first converted with `float()` (which
can raise `OverflowError` and rounds the magnitude to 53 bits) and the
resulting integer-valued double is rendered in e-notation. -/
def formatNumericalValue (nv : NumericalValueE) : Except PyErr NVOut :=
  match nv.value_format with
  | ValueFormat.DEFAULT => formatNumber nv.value
  | ValueFormat.DECIMAL => formatNumber nv.value
  | ValueFormat.HEXADECIMAL =>
      match nv.value with
      | NumValue.ofInt n => Except.ok (NVOut.asStr ("0x" ++ intHexStr n))
      | NumValue.ofFloat _ => Except.error PyErr.valueError
  | ValueFormat.BINARY =>
      match nv.value with
      | NumValue.ofInt n => Except.ok (NVOut.asStr ("0b" ++ intBinStr n))
      | NumValue.ofFloat _ => Except.error PyErr.valueError
  | ValueFormat.SCIENTIFIC =>
      match nv.value with
      | NumValue.ofInt n =>
          (floatOfInt n).map (fun v => NVOut.asStr (intENotation v))
      | NumValue.ofFloat f => Except.ok (NVOut.floatSci f)

/-! ## Writer state (writer.py `_XMLWriter`)

The writer emits text line by line; the embedding keeps the committed
lines (each already carrying its indentation prefix), the open-tag stack
(top first), and the indentation level.  `indentation_step` is 2 and the
indentation character is a space (`Writer.__init__`). -/

/-- The mutable text-emission state of `_XMLWriter`. -/
structure WState where
  indentationLevel : ℕ
  tagStack : List String
  lines : List String
deriving DecidableEq, Repr

/-- The state after `_str_open`/`_open`: empty output, level 0, empty
stack. -/
def initWState : WState :=
  { indentationLevel := 0, tagStack := [], lines := [] }

/-- The indentation prefix at a level (two spaces per level). -/
def indentationStr (level : ℕ) : String :=
  String.mk (List.replicate (level * 2) ' ')

/-- `_add_line`: commit one line at the current indentation. -/
def addLine (w : WState) (text : String) : WState :=
  { w with lines := w.lines ++ [indentationStr w.indentationLevel ++ text] }

/-- `_attr_to_str` (writer.py lines 124-129). -/
def attrToStr (attr : List (String × String)) : String :=
  String.intercalate " " (attr.map (fun kv => kv.1 ++ "=\"" ++ kv.2 ++ "\""))

/-- `_add_child` (writer.py lines 80-86): emit the opening tag, push it,
indent one step. -/
def addChild (w : WState) (tag : String) (attr : List (String × String)) :
    WState :=
  let w1 := if attr.isEmpty then addLine w ("<" ++ tag ++ ">")
    else addLine w ("<" ++ tag ++ " " ++ attrToStr attr ++ ">")
  { w1 with tagStack := tag :: w1.tagStack,
            indentationLevel := w1.indentationLevel + 1 }

/-- `_leave_child` (writer.py lines 88-91): pop the innermost tag,
dedent, emit the closing tag.  The embedded writers keep the stack
balanced, so the empty-stack case (an `IndexError` in Python) is never
reached. -/
def leaveChild (w : WState) : WState :=
  match w.tagStack with
  | [] => w
  | t :: rest =>
      addLine { w with tagStack := rest,
                       indentationLevel := w.indentationLevel - 1 }
        ("</" ++ t ++ ">")

/-- The dynamic `content` argument of `_add_content`: the call sites in
scope pass a `str`, a raw Python `int`, or the result of
`_format_float` (a `str` or a `decimal.Decimal` object).  `_add_content`
tests the TRUTHINESS of this object and interpolates it with `str()`. -/
inductive PyContent where
  | ofStr (s : String)
  | ofInt (n : ℤ)
  | ofFloatFmt (r : FormatFloatResult)
deriving DecidableEq, Repr

/-- Python truthiness of a content object: a string is truthy iff
non-empty, an int iff non-zero, a `Decimal` iff its value is non-zero
(i.e. its coefficient is non-zero, whatever sign and exponent). -/
def PyContent.truthy : PyContent → Bool
  | PyContent.ofStr s => !s.isEmpty
  | PyContent.ofInt n => n != 0
  | PyContent.ofFloatFmt (FormatFloatResult.asStr s) => !s.isEmpty
  | PyContent.ofFloatFmt (FormatFloatResult.asDec d) => d.coeff != 0

/-- `str()` of a content object, as the f-string interpolation applies
it. -/
def PyContent.render : PyContent → String
  | PyContent.ofStr s => s
  | PyContent.ofInt n => intStr n
  | PyContent.ofFloatFmt r => formatFloatText r

/-- `_add_content` (writer.py lines 108-122) in its non-inline form:
`if content:` tests the truthiness of the content OBJECT (so a raw
int 0 or a `Decimal` zero collapses the tag, exactly like an empty
string), emitting one line holding either a self-closing tag or an
open-content-close triple. -/
def addContent (w : WState) (tag : String) (content : PyContent)
    (attr : List (String × String)) : WState :=
  let text :=
    if attr.isEmpty then
      if content.truthy then
        "<" ++ tag ++ ">" ++ content.render ++ "</" ++ tag ++ ">"
      else "<" ++ tag ++ "/>"
    else
      if content.truthy then
        "<" ++ tag ++ " " ++ attrToStr attr ++ ">" ++ content.render ++
          "</" ++ tag ++ ">"
      else "<" ++ tag ++ " " ++ attrToStr attr ++ "/>"
  addLine w text

/-! ## Computation model (element.py `CompuConst`, `CompuRational`,
`CompuScale`, `Computation`) and its writers (writer.py) -/

/-- The dynamic content of a `CompuConst` (int, float or str). -/
inductive ConstVal where
  | ofInt (n : ℤ)
  | ofFloat (f : PyFloatRepr)
  | ofStr (s : String)
deriving DecidableEq, Repr

/-- `CompuConst` (element.py lines 1194-1204). -/
structure CompuConstE where
  value : ConstVal
deriving DecidableEq, Repr

/-- An entry of a `CompuRational` numerator or denominator tuple. -/
inductive NumF where
  | ofInt (n : ℤ)
  | ofFloat (f : PyFloatRepr)
deriving DecidableEq, Repr

/-- `CompuRational` (element.py lines 1170-1191): each coefficient list
is either absent or a tuple. -/
structure CompuRationalE where
  numerator : Option (List NumF)
  denominator : Option (List NumF)
deriving DecidableEq, Repr

/-- `ARObject.is_empty` instantiated at `CompuRational`: both attributes
are `None` (an empty tuple is not `None` and not a list, so it does not
count as empty). -/
def CompuRationalE.is_empty (r : CompuRationalE) : Bool :=
  r.numerator == none && r.denominator == none

/-- The content choice of a `CompuScale`: a constant or a rational
coefficient pair. -/
inductive ScaleContent where
  | constContent (c : CompuConstE)
  | rationalContent (r : CompuRationalE)
deriving DecidableEq, Repr

/-- A `CompuScale` limit as stored: int, float or string (the writer
raises on a string). -/
inductive LimitVal where
  | ofInt (n : ℤ)
  | ofFloat (f : PyFloatRepr)
  | ofStr (s : String)
deriving DecidableEq, Repr

/-- `CompuScale` (element.py lines 1207-1242), restricted to scales
whose `desc` is `None` (a populated DESC delegates to the documentation
writers, which no claim exercises).  The interval-type fields default to
`CLOSED` but a caller can pass `None` explicitly, hence the options. -/
structure CompuScaleE where
  content : Option ScaleContent
  lower_limit : Option LimitVal
  upper_limit : Option LimitVal
  label : Option String
  symbol : Option String
  mask : Option ℤ
  inverse_value : Option CompuConstE
  lower_limit_type : Option IntervalType
  upper_limit_type : Option IntervalType
deriving DecidableEq, Repr

/-- `ARObject.is_empty` instantiated at `CompuScale` (no attribute is a
list, so it is the conjunction of None-checks over all attributes —
including the interval types, which are non-None whenever the
constructor defaults apply). -/
def CompuScaleE.is_empty (s : CompuScaleE) : Bool :=
  s.content == none && s.lower_limit == none && s.upper_limit == none &&
  s.label == none && s.symbol == none && s.mask == none &&
  s.inverse_value == none && s.lower_limit_type == none &&
  s.upper_limit_type == none

/-- `Computation` (element.py lines 1257-1273): an optional list of
scales and an optional default value (already wrapped in `CompuConst`
by the constructor). -/
structure ComputationE where
  compu_scales : Option (List CompuScaleE)
  default_value : Option CompuConstE
deriving DecidableEq, Repr

/-- `ARObject.is_empty` instantiated at `Computation`: `compu_scales` is
empty when it is `None` or an empty list, `default_value` when `None`. -/
def ComputationE.is_empty (c : ComputationE) : Bool :=
  (c.compu_scales == none || c.compu_scales == some []) &&
  c.default_value == none

/-- Modelled from the spec: the enumeration-to-XML-token mapping service
(`ar_enum.enum_to_xml`) for interval types; the spec treats it as a pure
lookup table onto the schema tokens. -/
def enumToXmlInterval : IntervalType → String
  | IntervalType.CLOSED => "CLOSED"
  | IntervalType.OPEN => "OPEN"

/-- `Writer._write_compu_const` (writer.py lines 900-916): a child scope
holding VT text content or a V numeric content.  The content object is
passed raw: the string itself, the `_format_float` result (whose errors
propagate), or the RAW int — so `CompuConst(0)` and a 0.0 value emit a
self-closing V tag through the truthiness test in `_add_content`. -/
def writeCompuConst (w : WState) (elem : CompuConstE) (tag : String) :
    Except PyErr WState := do
  let w1 := addChild w tag []
  let w2 ←
    match elem.value with
    | ConstVal.ofStr s => pure (addContent w1 "VT" (PyContent.ofStr s) [])
    | ConstVal.ofFloat f => do
        let r ← formatFloat f
        pure (addContent w1 "V" (PyContent.ofFloatFmt r) [])
    | ConstVal.ofInt n => pure (addContent w1 "V" (PyContent.ofInt n) [])
  pure (leaveChild w2)

/-- `Writer._write_numerator_denominator_values` (writer.py lines
940-953) for the tuple case (the only case its caller produces): one V
line per entry.  A float goes through `_format_float` and its raw
result (possibly a falsy `Decimal` zero, collapsing the tag) reaches
`_add_content`; any other entry is passed through `str()` first, so an
int 0 renders as the truthy string "0". -/
def writeNumeratorDenominatorValues (w : WState) (values : List NumF) :
    Except PyErr WState :=
  values.foldlM
    (fun acc v => do
      let content ←
        match v with
        | NumF.ofFloat f => (formatFloat f).map PyContent.ofFloatFmt
        | NumF.ofInt n => pure (PyContent.ofStr (intStr n))
      pure (addContent acc "V" content []))
    w

/-- `Writer._write_compu_rational` (writer.py lines 918-938): an empty
object collapses to a single self-closing tag, otherwise numerator and
denominator blocks are written for the present coefficient lists. -/
def writeCompuRational (w : WState) (elem : CompuRationalE) :
    Except PyErr WState := do
  if elem.is_empty then
    pure (addContent w "COMPU-RATIONAL-COEFFS" (PyContent.ofStr "") [])
  else
    let w1 := addChild w "COMPU-RATIONAL-COEFFS" []
    let w2 ←
      match elem.numerator with
      | none => pure w1
      | some values => do
          let a := addChild w1 "COMPU-NUMERATOR" []
          let b ← writeNumeratorDenominatorValues a values
          pure (leaveChild b)
    let w3 ←
      match elem.denominator with
      | none => pure w2
      | some values => do
          let a := addChild w2 "COMPU-DENOMINATOR" []
          let b ← writeNumeratorDenominatorValues a values
          pure (leaveChild b)
    pure (leaveChild w3)

/-- `Writer._write_limit` (writer.py lines 885-898): asserts a non-None
interval type, renders it as an INTERVAL-TYPE attribute, and raises
`TypeError` on a non-numeric limit.  A float limit reaches
`_add_content` as the raw `_format_float` result (a `Decimal` zero is
falsy, collapsing the tag for a 0.0 limit), while an int limit is
passed through `str` first (so int 0 renders as the truthy "0"). -/
def writeLimit (w : WState) (tag : String) (limit : LimitVal)
    (limit_type : Option IntervalType) : Except PyErr WState := do
  match limit_type with
  | none => Except.error PyErr.assertionError
  | some t =>
      let attr := [("INTERVAL-TYPE", enumToXmlInterval t)]
      let text ←
        match limit with
        | LimitVal.ofFloat f => (formatFloat f).map PyContent.ofFloatFmt
        | LimitVal.ofInt n => pure (PyContent.ofStr (intStr n))
        | LimitVal.ofStr _ => Except.error PyErr.typeError
      pure (addContent w tag text attr)

/-- `Writer._write_compu_scale` (writer.py lines 852-883): an empty
scale collapses to one self-closing COMPU-SCALE tag; otherwise the
present fields are written in source order inside a COMPU-SCALE scope. -/
def writeCompuScale (w : WState) (elem : CompuScaleE) :
    Except PyErr WState := do
  if elem.is_empty then
    pure (addContent w "COMPU-SCALE" (PyContent.ofStr "") [])
  else
    let w1 := addChild w "COMPU-SCALE" []
    let w2 := match elem.label with
      | some l => addContent w1 "SHORT-LABEL" (PyContent.ofStr l) []
      | none => w1
    let w3 := match elem.symbol with
      | some s => addContent w2 "SYMBOL" (PyContent.ofStr s) []
      | none => w2
    let w4 := match elem.mask with
      | some m => addContent w3 "MASK" (PyContent.ofInt m) []
      | none => w3
    let w5 ←
      match elem.lower_limit with
      | some l => writeLimit w4 "LOWER-LIMIT" l elem.lower_limit_type
      | none => pure w4
    let w6 ←
      match elem.upper_limit with
      | some l => writeLimit w5 "UPPER-LIMIT" l elem.upper_limit_type
      | none => pure w5
    let w7 ←
      match elem.inverse_value with
      | some iv => writeCompuConst w6 iv "COMPU-INVERSE-VALUE"
      | none => pure w6
    let w8 ←
      match elem.content with
      | some (ScaleContent.constContent c) => writeCompuConst w7 c "COMPU-CONST"
      | some (ScaleContent.rationalContent r) => writeCompuRational w7 r
      | none => pure w7
    pure (leaveChild w8)

/-- `Writer._write_computation` (writer.py lines 836-850): ALWAYS opens
a child scope for the variant tag and closes it at the end — there is no
`is_empty` check, so even an empty `Computation` produces an
open-tag/close-tag line pair rather than one self-closing tag. -/
def writeComputation (w : WState) (elem : ComputationE) (tag : String) :
    Except PyErr WState := do
  let w1 := addChild w tag []
  let w2 ←
    match elem.compu_scales with
    | none => pure w1
    | some scales => do
        let a := addChild w1 "COMPU-SCALES" []
        let b ← scales.foldlM writeCompuScale a
        pure (leaveChild b)
  let w3 ←
    match elem.default_value with
    | none => pure w2
    | some dv => writeCompuConst w2 dv "COMPU-DEFAULT-VALUE"
  pure (leaveChild w3)

/-! ## File-writing entry points (writer.py `Writer.write_file` and
`Writer.write_file_elem`) -/

/-- The class-name keys of `Writer.switcher_collectable` (writer.py
lines 185-204), the dispatch table consulted by `write_file_elem`. -/
def switcherCollectableKeys : List String :=
  ["Package", "CompuMethod", "ApplicationArrayDataType",
   "ApplicationRecordDataType", "ApplicationPrimitiveDataType",
   "SwBaseType", "SwAddrMethod", "ImplementationDataType",
   "DataTypeMappingSet", "DataConstraint", "Unit",
   "ConstantSpecification"]

/-- `Writer.write_file_elem` (writer.py lines 303-314), with the
dispatched write method's own outcome abstracted as an argument.  The
returned Bool is whether the output stream is STILL OPEN after the call:
`self._open` runs first; `self._close()` is the last statement and runs
only if the dispatch lookup succeeded and the write method returned —
there is no try/finally, so the `NotImplementedError` raise and any
exception from the write method both leave the stream open. -/
def writeFileElem (className : String) (writeResult : Except PyErr Unit) :
    Except PyErr Unit × Bool :=
  if className ∈ switcherCollectableKeys then
    match writeResult with
    | Except.ok () => (Except.ok (), false)
    | Except.error e => (Except.error e, true)
  else
    (Except.error PyErr.notImplementedError, true)

/-- `Writer.write_file` (writer.py lines 278-284), with the document
walk's outcome abstracted as an argument: `_open`, `_write_document`,
`_close` in sequence with no try/finally, so an error escaping the walk
leaves the stream open. -/
def writeFile (documentWriteResult : Except PyErr Unit) :
    Except PyErr Unit × Bool :=
  match documentWriteResult with
  | Except.ok () => (Except.ok (), false)
  | Except.error e => (Except.error e, true)

/-! ## Helper lemmas -/

/-- `update_ref_parts` appends the chain names innermost-first. -/
theorem updateRefParts_eq (chain : ParentChain) :
    ∀ parts : List String,
      updateRefParts chain parts = parts ++ (chainNames chain).reverse := by
  induction chain with
  | doc => intro parts; simp [updateRefParts, chainNames]
  | pkg name rest ih =>
      intro parts
      simp [updateRefParts, chainNames, ih, List.append_assoc]

/-- The digit-stripping loop of `normalize` preserves the decimal value
at every fuel. -/
theorem stripZerosAux_value (fuel : ℕ) :
    ∀ (c : ℕ) (e : ℤ),
      ((stripZerosAux fuel c e).1 : ℚ) * (10 : ℚ) ^ (stripZerosAux fuel c e).2 =
        (c : ℚ) * (10 : ℚ) ^ e := by
  induction fuel with
  | zero => intro c e; simp [stripZerosAux]
  | succ fuel ih =>
      intro c e
      by_cases h : c ≠ 0 ∧ c % 10 = 0
      · have hdiv : (10 : ℕ) ∣ c := Nat.dvd_of_mod_eq_zero h.2
        have hc : (c / 10) * 10 = c := Nat.div_mul_cancel hdiv
        have hq : ((c / 10 : ℕ) : ℚ) * 10 = (c : ℚ) := by
          exact_mod_cast congrArg (fun n : ℕ => (n : ℚ)) hc
        rw [stripZerosAux, if_pos h, ih]
        rw [zpow_add_one₀ (by norm_num : (10 : ℚ) ≠ 0) e]
        rw [← hq]
        ring
      · rw [stripZerosAux, if_neg h]

/-- `normalize` preserves the decimal value. -/
theorem normalizeD_toQ (d : Dec) : (normalizeD d).toQ = d.toQ := by
  unfold normalizeD
  by_cases h : d.coeff = 0
  · simp [Dec.toQ, h]
  · simp only [if_neg h, Dec.toQ]
    have := stripZerosAux_value d.coeff d.coeff d.exp
    rw [mul_assoc, mul_assoc, this]

/-- Every character produced by the fueled digit builder is either from
the accumulator or a digit character of the base. -/
theorem natDigitsAux_mem (base : ℕ) (digitF : ℕ → Char) (hb : 0 < base)
    (fuel : ℕ) :
    ∀ (n : ℕ) (acc : List Char) (c : Char),
      c ∈ natDigitsAux base digitF fuel n acc →
      c ∈ acc ∨ ∃ d, d < base ∧ c = digitF d := by
  induction fuel with
  | zero => intro n acc c h; exact Or.inl h
  | succ fuel ih =>
      intro n acc c h
      rw [natDigitsAux] at h
      by_cases hn : n < base
      · rw [if_pos hn] at h
        rcases List.mem_cons.mp h with h1 | h1
        · exact Or.inr ⟨n, hn, h1⟩
        · exact Or.inl h1
      · rw [if_neg hn] at h
        rcases ih (n / base) (digitF (n % base) :: acc) c h with h1 | h1
        · rcases List.mem_cons.mp h1 with h2 | h2
          · exact Or.inr ⟨n % base, Nat.mod_lt _ hb, h2⟩
          · exact Or.inl h2
        · exact Or.inr h1

/-- Decimal digit characters are never a decimal point. -/
theorem dot_not_mem_natDigits10 (n : ℕ) :
    Char.ofNat 46 ∉ natDigits10 n := by
  intro h
  rcases natDigitsAux_mem 10 digitChar (by norm_num) (n + 1) n [] _ h with h1 | h1
  · exact absurd h1 (List.not_mem_nil _)
  · rcases h1 with ⟨d, hd, hc⟩
    interval_cases d <;> exact absurd hc (by decide)

/-- The fueled digit builder grows the accumulator by at least one
character when it has fuel. -/
theorem natDigitsAux_length (base : ℕ) (digitF : ℕ → Char) (fuel : ℕ) :
    ∀ (n : ℕ) (acc : List Char),
      acc.length + 1 ≤ (natDigitsAux base digitF (fuel + 1) n acc).length := by
  induction fuel with
  | zero =>
      intro n acc
      rw [natDigitsAux]
      by_cases hn : n < base
      · rw [if_pos hn]; simp
      · rw [if_neg hn, natDigitsAux]; simp
  | succ fuel ih =>
      intro n acc
      rw [natDigitsAux]
      by_cases hn : n < base
      · rw [if_pos hn]; simp
      · rw [if_neg hn]
        have := ih (n / base) (digitF (n % base) :: acc)
        simp only [List.length_cons] at this
        omega

/-- A number always renders to at least one decimal digit. -/
theorem natDigits10_length_pos (n : ℕ) : 1 ≤ (natDigits10 n).length := by
  have := natDigitsAux_length 10 digitChar n n []
  simpa [natDigits10] using this

/-- A decimal with exponent 0 renders in plain positional notation as
its (signed) digit string, which contains no decimal point. -/
theorem renderDec_exp_zero (sign : Bool) (c : ℕ) :
    renderDec { negSign := sign, coeff := c, exp := 0 } =
      (if sign then "-" else "") ++ String.mk (natDigits10 c) ∧
    Char.ofNat 46 ∉ natDigits10 c := by
  refine ⟨?_, dot_not_mem_natDigits10 c⟩
  have hlen := natDigits10_length_pos c
  unfold renderDec
  simp only
  have hplain : decide ((0 : ℤ) ≤ 0 ∧ -6 < (0 : ℤ) + ((natDigits10 c).length : ℤ)) = true := by
    simp
    omega
  rw [hplain]
  simp only [if_true]
  have h1 : ¬ ((0 : ℤ) + ((natDigits10 c).length : ℤ) ≤ 0) := by
    omega
  rw [if_neg h1]
  have h2 : ((natDigits10 c).length : ℤ) ≤ (0 : ℤ) + ((natDigits10 c).length : ℤ) := by
    omega
  rw [if_pos h2]
  simp

/-- Rewriting lemma: bind on a successful `Except`. -/
theorem except_bind_ok {ε α β : Type} (a : α) (f : α → Except ε β) :
    (Except.ok a >>= f : Except ε β) = f a := rfl

/-- Rewriting lemma: bind on a failed `Except`. -/
theorem except_bind_error {ε α β : Type} (e : ε) (f : α → Except ε β) :
    (Except.error e >>= f : Except ε β) = Except.error e := rfl

/-- Rewriting lemma: map on a successful `Except`. -/
theorem except_map_ok {ε α β : Type} (a : α) (f : α → β) :
    (f <$> (Except.ok a : Except ε α)) = Except.ok (f a) := rfl

/-- Rewriting lemma: `pure` on `Except` is `ok`. -/
theorem except_pure {ε α : Type} (a : α) :
    (pure a : Except ε α) = Except.ok a := rfl

/-- `round` agrees with the half-even rounding on integers. -/
theorem roundHalfEven_intCast (n : ℤ) : roundHalfEven ((n : ℚ)) = n := by
  unfold roundHalfEven
  rw [Int.floor_intCast]
  rw [if_neg ?hne]
  case hne =>
    intro h
    rw [sub_self] at h
    norm_num at h
  exact round_intCast n

/-- The sign flag of a decimal bounds the sign of its value. -/
theorem Dec.toQ_sign (d : Dec) :
    (d.negSign = false → 0 ≤ d.toQ) ∧ (d.negSign = true → d.toQ ≤ 0) := by
  constructor <;> intro h <;> simp [Dec.toQ, h] <;> positivity

/-! ## Claim theorems -/

/-- C1: after `p.append(a)` has succeeded, appending any item `b` (a
package or an element) carrying the same short name raises `ValueError`,
and the failed call leaves the package state — elements list, packages
list and name index together — exactly as it was before the call. -/
theorem append_duplicate_rejected (p p2 : PackageE) (a b : AppendItem)
    (hname : a.shortName = b.shortName) (hsome : a.shortName ≠ none)
    (hfirst : packageAppend p a = (Except.ok (), p2)) :
    (packageAppend p2 b).1 = Except.error PyErr.valueError ∧
    (packageAppend p2 b).2 = p2 := by
  obtain ⟨n, hn⟩ : ∃ n, a.shortName = some n := by
    cases h : a.shortName with
    | none => exact absurd h hsome
    | some n => exact ⟨n, rfl⟩
  have hbn : b.shortName = some n := hname ▸ hn
  have hkeys : n ∈ p2.keys := by
    cases a with
    | otherArg => simp [packageAppend] at hfirst
    | pkgArg q =>
        have hq : q.name = n := by simpa [AppendItem.shortName] using hn
        by_cases hm : q.name ∈ p.keys
        · simp [packageAppend, hm] at hfirst
        · simp only [packageAppend, if_neg hm] at hfirst
          obtain ⟨-, rfl⟩ := Prod.mk.injEq .. ▸ hfirst
          simp [PackageE.keys, PackageE.collectionMap, hq]
    | elemArg e =>
        have he : e.name = n := by simpa [AppendItem.shortName] using hn
        by_cases hm : e.name ∈ p.keys
        · simp [packageAppend, hm] at hfirst
        · simp only [packageAppend, if_neg hm] at hfirst
          obtain ⟨-, rfl⟩ := Prod.mk.injEq .. ▸ hfirst
          simp [PackageE.keys, PackageE.collectionMap, he]
  cases b with
  | otherArg => simp [AppendItem.shortName] at hbn
  | pkgArg q2 =>
      have hq2 : q2.name = n := by simpa [AppendItem.shortName] using hbn
      rw [← hq2] at hkeys
      constructor <;> simp [packageAppend, hkeys]
  | elemArg e2 =>
      have he2 : e2.name = n := by simpa [AppendItem.shortName] using hbn
      rw [← he2] at hkeys
      constructor <;> simp [packageAppend, hkeys]

/-- Witness for C1: an element "X" is appended successfully; appending a
sub-package also named "X" fails with ValueError and changes nothing. -/
theorem append_duplicate_rejected_witness :
    (packageAppend
        (PackageE.mk "P" none [{ name := "X", parentName := some "P" }] []
          [("X", CollItem.elemV { name := "X", parentName := some "P" })])
        (AppendItem.pkgArg (PackageE.mk "X" none [] [] []))).1 =
      Except.error PyErr.valueError ∧
    (packageAppend
        (PackageE.mk "P" none [{ name := "X", parentName := some "P" }] []
          [("X", CollItem.elemV { name := "X", parentName := some "P" })])
        (AppendItem.pkgArg (PackageE.mk "X" none [] [] []))).2 =
      PackageE.mk "P" none [{ name := "X", parentName := some "P" }] []
        [("X", CollItem.elemV { name := "X", parentName := some "P" })] :=
  append_duplicate_rejected
    (PackageE.mk "P" none [] [] [])
    (PackageE.mk "P" none [{ name := "X", parentName := some "P" }] []
      [("X", CollItem.elemV { name := "X", parentName := some "P" })])
    (AppendItem.elemArg { name := "X", parentName := none })
    (AppendItem.pkgArg (PackageE.mk "X" none [] [] []))
    rfl (by simp [AppendItem.shortName]) rfl

/-- A signed decimal with coefficient |m| at exponent 0 denotes m, when
the sign flag agrees with the sign of m. -/
theorem dec_toQ_natAbs (sign : Bool) (m : ℤ)
    (h1 : sign = false → 0 ≤ m) (h2 : sign = true → m ≤ 0) :
    Dec.toQ { negSign := sign, coeff := m.natAbs, exp := 0 } = (m : ℚ) := by
  cases sign
  · have hm := h1 rfl
    simp only [Dec.toQ, Bool.false_eq_true, if_false, zpow_zero, mul_one, one_mul]
    rw [Int.cast_natAbs]
    exact_mod_cast abs_of_nonneg hm
  · have hm := h2 rfl
    simp only [Dec.toQ, if_true, zpow_zero, mul_one]
    rw [Int.cast_natAbs, abs_of_nonpos hm]
    push_cast
    ring

/-- The integral branch of `_format_float`: when the value is an integer
whose digit count fits the context precision, quantize succeeds with the
rounded coefficient at exponent 0. -/
theorem formatFloat_integral (d : Dec) (hInt : d.isIntegral = true)
    (hLen : (natDigits10 (roundHalfEven d.toQ).natAbs).length ≤ 28) :
    formatFloat (PyFloatRepr.finite d) =
      Except.ok (FormatFloatResult.asDec
        { negSign := d.negSign, coeff := (roundHalfEven d.toQ).natAbs,
          exp := 0 }) := by
  simp only [formatFloat, hInt, if_true, quantizeOne]
  rw [if_neg (by omega)]
  rfl

/-- Quantizing an integral decimal to exponent 0 keeps its value. -/
theorem quantize_preserves_value (d : Dec) (hInt : d.isIntegral = true) :
    Dec.toQ { negSign := d.negSign, coeff := (roundHalfEven d.toQ).natAbs,
              exp := 0 } = d.toQ := by
  have hden : d.toQ.den = 1 := by simpa [Dec.isIntegral] using hInt
  have hq : ((d.toQ.num : ℚ)) = d.toQ := (Rat.den_eq_one_iff _).mp hden
  have hr : roundHalfEven d.toQ = d.toQ.num := by
    conv_lhs => rw [← hq]
    rw [roundHalfEven_intCast]
  rw [hr, dec_toQ_natAbs d.negSign d.toQ.num, hq]
  · intro hs
    exact Rat.num_nonneg.mpr ((Dec.toQ_sign d).1 hs)
  · intro hs
    exact Rat.num_nonpos.mpr ((Dec.toQ_sign d).2 hs)

/-- The decimal of str(2.0) denotes 2. -/
theorem toQ_two : Dec.toQ { negSign := false, coeff := 20, exp := -1 } = 2 := by
  simp only [Dec.toQ, Bool.false_eq_true, if_false, one_mul, zpow_neg_one]
  norm_num

/-- The decimal of str(2.0) passes the integral test. -/
theorem isIntegral_two :
    Dec.isIntegral { negSign := false, coeff := 20, exp := -1 } = true := by
  simp [Dec.isIntegral, toQ_two]

/-- Half-even rounding of the decimal of str(2.0). -/
theorem round_two :
    roundHalfEven (Dec.toQ { negSign := false, coeff := 20, exp := -1 }) = 2 := by
  rw [toQ_two]
  have h : ((2 : ℤ) : ℚ) = (2 : ℚ) := by norm_num
  rw [← h, roundHalfEven_intCast]

/-- The decimal of str(1e28) denotes the integer 10^28. -/
theorem toQ_1e28 :
    Dec.toQ { negSign := false, coeff := 1, exp := 28 } = ((10 ^ 28 : ℤ) : ℚ) := by
  simp only [Dec.toQ, Bool.false_eq_true, if_false, one_mul, Nat.cast_one]
  push_cast
  norm_num

/-- The decimal of str(1e28) passes the integral test. -/
theorem isIntegral_1e28 :
    Dec.isIntegral { negSign := false, coeff := 1, exp := 28 } = true := by
  simp [Dec.isIntegral, toQ_1e28]

/-- Evaluating `_format_float` at the decimal of str(1e28): the quantize
step needs a 29-digit coefficient, above the context precision of 28, so
`decimal.InvalidOperation` is raised. -/
theorem formatFloat_1e28 :
    formatFloat (PyFloatRepr.finite { negSign := false, coeff := 1, exp := 28 }) =
      Except.error PyErr.invalidOperation := by
  have hr : roundHalfEven (Dec.toQ { negSign := false, coeff := 1, exp := 28 }) =
      10 ^ 28 := by
    rw [toQ_1e28, roundHalfEven_intCast]
  have habs : ((10 : ℤ) ^ 28).natAbs = 10 ^ 28 := by
    rw [Int.natAbs_pow]
    rfl
  simp only [formatFloat, isIntegral_1e28, if_true, quantizeOne, hr, habs]
  rw [if_pos (by decide)]
  rfl

/-- The decimal of str(0.1) denotes 1/10. -/
theorem toQ_tenth :
    Dec.toQ { negSign := false, coeff := 1, exp := -1 } = 1 / 10 := by
  simp only [Dec.toQ, Bool.false_eq_true, if_false, one_mul, Nat.cast_one,
    zpow_neg_one]
  norm_num

/-- 1/10 is not an integer. -/
theorem den_tenth_ne_one : ((1 : ℚ) / 10).den ≠ 1 := by
  intro h
  have h2 := (Rat.den_eq_one_iff _).mp h
  have h3 : (((1 : ℚ) / 10).num : ℚ) * 10 = 1 := by
    rw [h2]
    norm_num
  have h4 : ((1 : ℚ) / 10).num * 10 = 1 := by exact_mod_cast h3
  omega

/-- The decimal of str(0.1) fails the integral test. -/
theorem isIntegral_tenth :
    Dec.isIntegral { negSign := false, coeff := 1, exp := -1 } = false := by
  simp [Dec.isIntegral, toQ_tenth, den_tenth_ne_one]

/-- C2 (the claim is right, the code has a bug at large integral
floats): the special values format as INF, -INF and NaN; a non-integral
float is normalized with its exact decimal value preserved, so the
output parses back to the same float (Python guarantees
float(str(f)) == f, and the output denotes the same decimal as str(f));
an integral float whose integer rendering fits in 28 digits is quantized
to a decimal with exponent 0, same value, rendered as a signed digit
string with no decimal point; BUT an integral-valued float needing more
than 28 digits — e.g. f = 1e28, whose str is "1e+28" — makes
`tmp.quantize(decimal.Decimal(1))` raise `decimal.InvalidOperation`
(result coefficient longer than the context precision 28), so
`_format_float` raises instead of producing a number string. -/
theorem format_float_quantize_bug :
    formatFloat PyFloatRepr.inf = Except.ok (FormatFloatResult.asStr "INF") ∧
    formatFloat PyFloatRepr.neginf = Except.ok (FormatFloatResult.asStr "-INF") ∧
    formatFloat PyFloatRepr.nan = Except.ok (FormatFloatResult.asStr "NaN") ∧
    (∀ d : Dec, d.isIntegral = false →
       formatFloat (PyFloatRepr.finite d) =
         Except.ok (FormatFloatResult.asDec (normalizeD d)) ∧
       (normalizeD d).toQ = d.toQ) ∧
    (∀ d : Dec, d.isIntegral = true →
       (natDigits10 (roundHalfEven d.toQ).natAbs).length ≤ 28 →
       formatFloat (PyFloatRepr.finite d) =
         Except.ok (FormatFloatResult.asDec
           { negSign := d.negSign, coeff := (roundHalfEven d.toQ).natAbs,
             exp := 0 }) ∧
       Dec.toQ { negSign := d.negSign, coeff := (roundHalfEven d.toQ).natAbs,
                 exp := 0 } = d.toQ ∧
       renderDec { negSign := d.negSign, coeff := (roundHalfEven d.toQ).natAbs,
                   exp := 0 } =
         (if d.negSign then "-" else "") ++
           String.mk (natDigits10 (roundHalfEven d.toQ).natAbs) ∧
       Char.ofNat 46 ∉ natDigits10 (roundHalfEven d.toQ).natAbs) ∧
    (formatFloat (PyFloatRepr.finite { negSign := false, coeff := 20, exp := -1 }) =
       Except.ok (FormatFloatResult.asDec { negSign := false, coeff := 2, exp := 0 }) ∧
     renderDec { negSign := false, coeff := 2, exp := 0 } = "2") ∧
    Dec.isIntegral { negSign := false, coeff := 1, exp := 28 } = true ∧
    formatFloat (PyFloatRepr.finite { negSign := false, coeff := 1, exp := 28 }) =
      Except.error PyErr.invalidOperation := by
  refine ⟨rfl, rfl, rfl, ?_, ?_, ⟨?_, by decide⟩, isIntegral_1e28, formatFloat_1e28⟩
  · intro d h
    exact ⟨by simp [formatFloat, h], normalizeD_toQ d⟩
  · intro d hInt hLen
    exact ⟨formatFloat_integral d hInt hLen, quantize_preserves_value d hInt,
      (renderDec_exp_zero d.negSign _).1, (renderDec_exp_zero d.negSign _).2⟩
  · have hLen2 : (natDigits10 (roundHalfEven
        (Dec.toQ { negSign := false, coeff := 20, exp := -1 })).natAbs).length ≤ 28 := by
      rw [round_two]
      decide
    have h := formatFloat_integral { negSign := false, coeff := 20, exp := -1 }
      isIntegral_two hLen2
    rw [round_two] at h
    exact h

/-- Witness for C2's general conjuncts: the non-integral decimal of
str(0.1) is passed through normalize with its value kept, and the
integral decimal of str(2.0) quantizes to value 2 with exponent 0. -/
theorem format_float_quantize_bug_witness :
    (formatFloat (PyFloatRepr.finite { negSign := false, coeff := 1, exp := -1 }) =
       Except.ok (FormatFloatResult.asDec
         (normalizeD { negSign := false, coeff := 1, exp := -1 })) ∧
     (normalizeD { negSign := false, coeff := 1, exp := -1 }).toQ =
       Dec.toQ { negSign := false, coeff := 1, exp := -1 }) ∧
    (formatFloat (PyFloatRepr.finite { negSign := false, coeff := 20, exp := -1 }) =
       Except.ok (FormatFloatResult.asDec
         { negSign := false,
           coeff := (roundHalfEven
             (Dec.toQ { negSign := false, coeff := 20, exp := -1 })).natAbs,
           exp := 0 }) ∧
     Dec.toQ { negSign := false,
               coeff := (roundHalfEven
                 (Dec.toQ { negSign := false, coeff := 20, exp := -1 })).natAbs,
               exp := 0 } =
       Dec.toQ { negSign := false, coeff := 20, exp := -1 } ∧
     renderDec { negSign := false,
                 coeff := (roundHalfEven
                   (Dec.toQ { negSign := false, coeff := 20, exp := -1 })).natAbs,
                 exp := 0 } =
       (if ({ negSign := false, coeff := 20, exp := -1 } : Dec).negSign
         then "-" else "") ++
         String.mk (natDigits10 (roundHalfEven
           (Dec.toQ { negSign := false, coeff := 20, exp := -1 })).natAbs) ∧
     Char.ofNat 46 ∉ natDigits10 (roundHalfEven
       (Dec.toQ { negSign := false, coeff := 20, exp := -1 })).natAbs) :=
  ⟨format_float_quantize_bug.2.2.2.1
     { negSign := false, coeff := 1, exp := -1 } isIntegral_tenth,
   format_float_quantize_bug.2.2.2.2.1
     { negSign := false, coeff := 20, exp := -1 } isIntegral_two
     (by rw [round_two]; decide)⟩

/-- C3 counterexample: `Computation` has a registered writer
(`switcher_non_collectable["Computation"]`), the empty `Computation` has
every attribute None (`is_empty` holds), yet `_write_computation` emits
an open-tag line and a close-tag line — an open/children/close sequence
of two lines, not one self-contained tag — because it performs no
`is_empty` check before recursing. -/
theorem write_computation_no_collapse :
    ComputationE.is_empty { compu_scales := none, default_value := none } = true ∧
    writeComputation initWState { compu_scales := none, default_value := none }
        "COMPU-INTERNAL-TO-PHYS" =
      Except.ok { indentationLevel := 0, tagStack := [],
                  lines := ["<COMPU-INTERNAL-TO-PHYS>",
                            "</COMPU-INTERNAL-TO-PHYS>"] } ∧
    (["<COMPU-INTERNAL-TO-PHYS>", "</COMPU-INTERNAL-TO-PHYS>"] : List String) ≠
      ["<COMPU-INTERNAL-TO-PHYS/>"] := by
  refine ⟨by decide, by decide, by decide⟩

/-- C3 amended: the empty-object collapse is NOT applied uniformly by
every registered writer before recursing.  Writers that do check
`is_empty` — e.g. `_write_compu_rational` — emit exactly one
self-contained tag for an empty object; but `_write_computation`
(registered for `Computation`) performs no such check and emits an
open/close line pair (plus an empty COMPU-SCALES block when the scale
list is present but empty) even when the object is empty. -/
theorem empty_collapse_not_uniform :
    (∀ r : CompuRationalE, r.is_empty = true →
       writeCompuRational initWState r =
         Except.ok { indentationLevel := 0, tagStack := [],
                     lines := ["<COMPU-RATIONAL-COEFFS/>"] }) ∧
    (∀ (c : ComputationE) (tag : String), c.is_empty = true →
       writeComputation initWState c tag =
         Except.ok { indentationLevel := 0, tagStack := [],
                     lines := if c.compu_scales = some []
                       then ["<" ++ tag ++ ">", "  <COMPU-SCALES>",
                             "  </COMPU-SCALES>", "</" ++ tag ++ ">"]
                       else ["<" ++ tag ++ ">", "</" ++ tag ++ ">"] }) := by
  constructor
  · intro r h
    rcases r with ⟨nu, de⟩
    simp only [CompuRationalE.is_empty, Bool.and_eq_true, beq_iff_eq] at h
    obtain ⟨rfl, rfl⟩ := h
    decide
  · intro c tag h
    rcases c with ⟨cs, dv⟩
    simp only [ComputationE.is_empty, Bool.and_eq_true, Bool.or_eq_true,
      beq_iff_eq] at h
    obtain ⟨hcs, rfl⟩ := h
    rcases hcs with rfl | rfl
    · rfl
    · rfl

/-- Witness for C3 amended at the empty CompuRational and the empty
Computation. -/
theorem empty_collapse_not_uniform_witness :
    writeCompuRational initWState { numerator := none, denominator := none } =
      Except.ok { indentationLevel := 0, tagStack := [],
                  lines := ["<COMPU-RATIONAL-COEFFS/>"] } ∧
    writeComputation initWState { compu_scales := none, default_value := none }
        "COMPU-PHYS-TO-INTERNAL" =
      Except.ok { indentationLevel := 0, tagStack := [],
                  lines := ["<COMPU-PHYS-TO-INTERNAL>",
                            "</COMPU-PHYS-TO-INTERNAL>"] } :=
  ⟨empty_collapse_not_uniform.1 { numerator := none, denominator := none }
     (by decide),
   empty_collapse_not_uniform.2 { compu_scales := none, default_value := none }
     "COMPU-PHYS-TO-INTERNAL" (by decide)⟩

/-- C6: the builder maps plain input shapes to variants as claimed —
`make_value(5)` to a numeric node with value 5, `make_value("x")` to a
text node, `make_value(None)` to a not-available node,
`make_value(["array", 1, 2, 3])` to an array node with three numeric
children in input order, `make_value(("label", 5))` to a numeric node
labelled "label" — and a list whose first element is not a recognized
case-insensitive discriminator raises immediately (`ValueError` for an
unrecognized string head, `TypeError` for a non-string head, here shown
for an int head). -/
theorem make_value_builder :
    makeValue (PyData.ofInt 5) =
      Except.ok (VSpec.numerical none (NumVal.ofInt 5)) ∧
    makeValue (PyData.ofStr "x") = Except.ok (VSpec.text none "x") ∧
    makeValue PyData.noneVal = Except.ok (VSpec.notAvailable none none) ∧
    makeValue (PyData.ofList [PyData.ofStr "array", PyData.ofInt 1,
        PyData.ofInt 2, PyData.ofInt 3]) =
      Except.ok (VSpec.array none
        [VSpec.numerical none (NumVal.ofInt 1),
         VSpec.numerical none (NumVal.ofInt 2),
         VSpec.numerical none (NumVal.ofInt 3)]) ∧
    makeValue (PyData.ofTuple [PyData.ofStr "label", PyData.ofInt 5]) =
      Except.ok (VSpec.numerical (some "label") (NumVal.ofInt 5)) ∧
    (∀ (s : String) (xs : List PyData),
       pyUpper s ≠ "A" → pyUpper s ≠ "ARRAY" →
       pyUpper s ≠ "R" → pyUpper s ≠ "RECORD" →
       makeValue (PyData.ofList (PyData.ofStr s :: xs)) =
         Except.error PyErr.valueError) ∧
    (∀ (n : ℤ) (xs : List PyData),
       makeValue (PyData.ofList (PyData.ofInt n :: xs)) =
         Except.error PyErr.typeError) := by
  refine ⟨?_, ?_, ?_, ?_, ?_, ?_, ?_⟩
  · simp [makeValue, makeFromArgs]
  · simp [makeValue, makeFromArgs]
  · simp [makeValue, makeFromArgs, notAvailableInit]
  · have hA : pyUpper "array" = "ARRAY" := by decide
    have h1 : makeValue (PyData.ofInt 1) =
        Except.ok (VSpec.numerical none (NumVal.ofInt 1)) := by
      simp [makeValue, makeFromArgs]
    have h2 : makeValue (PyData.ofInt 2) =
        Except.ok (VSpec.numerical none (NumVal.ofInt 2)) := by
      simp [makeValue, makeFromArgs]
    have h3 : makeValue (PyData.ofInt 3) =
        Except.ok (VSpec.numerical none (NumVal.ofInt 3)) := by
      simp [makeValue, makeFromArgs]
    have hl : makeList [PyData.ofInt 1, PyData.ofInt 2, PyData.ofInt 3] =
        Except.ok [VSpec.numerical none (NumVal.ofInt 1),
          VSpec.numerical none (NumVal.ofInt 2),
          VSpec.numerical none (NumVal.ofInt 3)] := by
      simp [makeList, h1, h2, h3, except_bind_ok, except_pure]
    simp [makeValue, makeFromArgs, hA, hl, except_map_ok]
  · simp [makeValue, makeFromArgs]
  · intro s xs h1 h2 h3 h4
    simp [makeValue, makeFromArgs, h1, h2, h3, h4]
  · intro n xs
    simp [makeValue, makeFromArgs]

/-- Witness for C6's raising conjuncts: an unrecognized discriminator
"matrix" raises ValueError, an int list head raises TypeError. -/
theorem make_value_builder_witness :
    makeValue (PyData.ofList [PyData.ofStr "matrix", PyData.ofInt 1]) =
      Except.error PyErr.valueError ∧
    makeValue (PyData.ofList [PyData.ofInt 7]) =
      Except.error PyErr.typeError :=
  ⟨make_value_builder.2.2.2.2.2.1 "matrix" [PyData.ofInt 1]
     (by decide) (by decide) (by decide) (by decide),
   make_value_builder.2.2.2.2.2.2 7 []⟩

/-- C4: for an element C owned by package B owned by package A rooted at
the document, `ref()` computes "A/B/C" by walking the parent links at
query time; the result is a pure function of the CURRENT parent chain
(first conjunct, for every name and every chain), so after re-parenting
the next call reflects the new location — shown concretely by the /A/B
chain giving "A/B/C" and the same element under chain /D giving "D/C" —
and an object with no parent yields `none`. -/
theorem compu_method_ref_path :
    (∀ (name : String) (chain : ParentChain),
       CompuMethodE.ref { name := name, parent := some chain } =
         some { value := String.intercalate "/" (chainNames chain ++ [name]),
                dest := IdentifiableSubTypes.COMPU_METHOD }) ∧
    (∀ name : String, CompuMethodE.ref { name := name, parent := none } = none) ∧
    CompuMethodE.ref
        { name := "C",
          parent := some (ParentChain.pkg "B" (ParentChain.pkg "A" ParentChain.doc)) } =
      some { value := "A/B/C", dest := IdentifiableSubTypes.COMPU_METHOD } ∧
    CompuMethodE.ref
        { name := "C", parent := some (ParentChain.pkg "D" ParentChain.doc) } =
      some { value := "D/C", dest := IdentifiableSubTypes.COMPU_METHOD } := by
  refine ⟨?_, fun name => rfl, by decide, by decide⟩
  intro name chain
  simp [CompuMethodE.ref, updateRefParts_eq, List.reverse_append]

/-- C5: constructing a `CompuMethodRef` through the `BaseRef` machinery
with any destination kind other than COMPU_METHOD raises `ValueError` at
construction time; the class constructor (which fixes COMPU_METHOD)
succeeds and the string conversion of the result is exactly the path
given; and success depends ONLY on the destination kind — the path
string is never inspected or resolved (third conjunct, an iff for every
path and kind). -/
theorem compu_method_ref_dest_check :
    (∀ (v : String) (dest : IdentifiableSubTypes),
       dest ≠ IdentifiableSubTypes.COMPU_METHOD →
         compuMethodRefBase v dest = Except.error PyErr.valueError) ∧
    (∀ v : String,
       compuMethodRefInit v =
         Except.ok { value := v, dest := IdentifiableSubTypes.COMPU_METHOD } ∧
       CompuMethodRefE.str
           { value := v, dest := IdentifiableSubTypes.COMPU_METHOD } = v) ∧
    (∀ (v : String) (dest : IdentifiableSubTypes),
       (∃ r, compuMethodRefBase v dest = Except.ok r) ↔
         dest = IdentifiableSubTypes.COMPU_METHOD) := by
  refine ⟨?_, fun v => ⟨rfl, rfl⟩, ?_⟩
  · intro v dest h
    simp [compuMethodRefBase, h]
  · intro v dest
    constructor
    · rintro ⟨r, hr⟩
      by_contra h
      simp [compuMethodRefBase, h] at hr
    · intro h
      subst h
      exact ⟨_, rfl⟩

/-- Witness for C5 at a concrete path and a concrete wrong kind. -/
theorem compu_method_ref_dest_check_witness :
    compuMethodRefBase "/Pkg/CM" IdentifiableSubTypes.UNIT =
      Except.error PyErr.valueError :=
  compu_method_ref_dest_check.1 "/Pkg/CM" IdentifiableSubTypes.UNIT (by decide)

/-- C9: when a `Unit` is constructed with a string `display_name` d and
a string `physical_dimension_ref` s, the constructor (element.py line
1634) builds `PhysicalDimensionRef(display_name)`, so the stored
reference path is d — and, whenever d differs from s, not s. -/
theorem unit_pdr_uses_display_name (name d s : String) (h : d ≠ s) :
    unitInit name (some (DisplayNameArg.ofStr d)) none none
        (some (PdRefArg.ofStr s)) =
      Except.ok { name := name,
                  display_name := some (singleLanguageUnitNamesOfStr d),
                  physical_dimension_ref :=
                    some { value := PdValue.ofStr d,
                           dest := IdentifiableSubTypes.PHYSICAL_DIMENSION },
                  factor := none, offset := none } ∧
    PdValue.ofStr d ≠ PdValue.ofStr s := by
  exact ⟨rfl, by simp [h]⟩

/-- Witness for C9: a concrete Unit stores "V" (the display name), not
the physical-dimension path that was passed. -/
theorem unit_pdr_uses_display_name_witness :
    unitInit "Volt" (some (DisplayNameArg.ofStr "V")) none none
        (some (PdRefArg.ofStr "/Dimensions/ElectricPotential")) =
      Except.ok { name := "Volt",
                  display_name := some (singleLanguageUnitNamesOfStr "V"),
                  physical_dimension_ref :=
                    some { value := PdValue.ofStr "V",
                           dest := IdentifiableSubTypes.PHYSICAL_DIMENSION },
                  factor := none, offset := none } ∧
    PdValue.ofStr "V" ≠ PdValue.ofStr "/Dimensions/ElectricPotential" :=
  unit_pdr_uses_display_name "Volt" "V" "/Dimensions/ElectricPotential" (by decide)

/-- C10: for a name already indexed, `create_package` RETURNS a
`ValueError` object as its value — the embedded result type has no
exception alternative because the source branch contains no raise — and
leaves the package contents unchanged; for a fresh name it creates,
indexes, parents and returns the new sub-package. -/
theorem create_package_returns_error_object (p : PackageE) (n : String) :
    (n ∈ p.keys → createPackage p n = (CreateReturn.valueErrorObject, p)) ∧
    (n ∉ p.keys →
       createPackage p n =
         (CreateReturn.newPackage (PackageE.mk n (some p.name) [] [] []),
          PackageE.mk p.name p.parentName p.elements
            (p.packages ++ [PackageE.mk n (some p.name) [] [] []])
            (p.collectionMap ++
              [(n, CollItem.pkgV (PackageE.mk n (some p.name) [] [] []))]))) := by
  constructor
  · intro h
    simp [createPackage, h]
  · intro h
    simp [createPackage, h]

/-- Witness for C10 at a concrete package: a duplicate name returns the
error object with the state untouched, a fresh name creates a
sub-package. -/
theorem create_package_returns_error_object_witness :
    createPackage
        (PackageE.mk "P" none [] [PackageE.mk "A" (some "P") [] [] []]
          [("A", CollItem.pkgV (PackageE.mk "A" (some "P") [] [] []))]) "A" =
      (CreateReturn.valueErrorObject,
       PackageE.mk "P" none [] [PackageE.mk "A" (some "P") [] [] []]
         [("A", CollItem.pkgV (PackageE.mk "A" (some "P") [] [] []))]) ∧
    createPackage
        (PackageE.mk "P" none [] [PackageE.mk "A" (some "P") [] [] []]
          [("A", CollItem.pkgV (PackageE.mk "A" (some "P") [] [] []))]) "B" =
      (CreateReturn.newPackage (PackageE.mk "B" (some "P") [] [] []),
       PackageE.mk "P" none []
         [PackageE.mk "A" (some "P") [] [] [], PackageE.mk "B" (some "P") [] [] []]
         [("A", CollItem.pkgV (PackageE.mk "A" (some "P") [] [] [])),
          ("B", CollItem.pkgV (PackageE.mk "B" (some "P") [] [] []))]) :=
  ⟨(create_package_returns_error_object
      (PackageE.mk "P" none [] [PackageE.mk "A" (some "P") [] [] []]
        [("A", CollItem.pkgV (PackageE.mk "A" (some "P") [] [] []))]) "A").1
      (by simp [PackageE.keys, PackageE.collectionMap]),
   (create_package_returns_error_object
      (PackageE.mk "P" none [] [PackageE.mk "A" (some "P") [] [] []]
        [("A", CollItem.pkgV (PackageE.mk "A" (some "P") [] [] []))]) "B").2
      (by simp [PackageE.keys, PackageE.collectionMap])⟩

/-- C7 counterexample: `write_file_elem` on a class with no entry in the
collectable dispatch table ("CompuScale" is registered only for string
output) raises `NotImplementedError` and the output stream is STILL OPEN
(second component true) — stream closure does not happen on this exit
path, contrary to the claim. -/
theorem write_file_elem_leaves_stream_open :
    writeFileElem "CompuScale" (Except.ok ()) =
      (Except.error PyErr.notImplementedError, true) := by
  decide

/-- C7 amended: the stream is closed only on the fully successful path.
`write_file_elem` closes the stream after a registered writer returns
normally; when the dispatch lookup fails it raises `NotImplementedError`
with the stream left open, and an exception from the dispatched writer
likewise skips `_close` (there is no try/finally); `write_file` closes
after a successful document walk and leaves the stream open when the
walk raises. -/
theorem write_file_stream_scoping :
    (∀ className, className ∉ switcherCollectableKeys →
       ∀ r, writeFileElem className r =
         (Except.error PyErr.notImplementedError, true)) ∧
    (∀ className, className ∈ switcherCollectableKeys →
       writeFileElem className (Except.ok ()) = (Except.ok (), false) ∧
       ∀ e, writeFileElem className (Except.error e) = (Except.error e, true)) ∧
    writeFile (Except.ok ()) = (Except.ok (), false) ∧
    (∀ e, writeFile (Except.error e) = (Except.error e, true)) := by
  refine ⟨?_, ?_, rfl, fun e => rfl⟩
  · intro cn h r
    cases r with
    | ok u => cases u; simp [writeFileElem, h]
    | error e => simp [writeFileElem, h]
  · intro cn h
    exact ⟨by simp [writeFileElem, h], fun e => by simp [writeFileElem, h]⟩

/-- Witness for C7 amended at concrete class names: an unregistered
class leaves the stream open, a registered one closes it. -/
theorem write_file_stream_scoping_witness :
    writeFileElem "Annotation" (Except.ok ()) =
      (Except.error PyErr.notImplementedError, true) ∧
    writeFileElem "CompuMethod" (Except.ok ()) = (Except.ok (), false) :=
  ⟨write_file_stream_scoping.1 "Annotation" (by decide) (Except.ok ()),
   (write_file_stream_scoping.2.1 "CompuMethod" (by decide)).1⟩

/-- C8 counterexample: the wrapper `NumericalValue(2.5,
ValueFormat.HEXADECIMAL)` is constructible (the constructor keeps the
caller's tag for a float value), but the writer does not render it as a
0x literal — interpolating a float with the `x` format code raises
`ValueError`. -/
theorem format_numerical_value_hex_float_raises :
    formatNumericalValue
        (numericalValueInit
          (NumValue.ofFloat (PyFloatRepr.finite
            { negSign := false, coeff := 25, exp := -1 }))
          ValueFormat.HEXADECIMAL) =
      Except.error PyErr.valueError := by
  decide

set_option maxRecDepth 100000 in
set_option exponentiation.threshold 2100 in
/-- C8 amended: the writer renders a `NumericalValue` purely from its
explicit format tag, never inferring one: DEFAULT and DECIMAL delegate
to the plain number formatter unchanged; for int values HEXADECIMAL
renders a 0x-prefixed lowercase hex literal and BINARY a 0b-prefixed
binary literal; SCIENTIFIC renders the e-notation of `float(n)` — which
rounds the magnitude through the double (1000000500000000000000 prints
as 1.000001e+21) and raises `OverflowError` beyond the double range
(10^400) — and for float values HEXADECIMAL and BINARY raise
`ValueError` instead of rendering. -/
theorem format_numerical_value_honors_tag :
    (∀ v, formatNumericalValue (numericalValueInit v ValueFormat.DEFAULT) =
       formatNumber v) ∧
    (∀ v, formatNumericalValue (numericalValueInit v ValueFormat.DECIMAL) =
       formatNumber v) ∧
    (∀ n : ℤ, formatNumericalValue
        (numericalValueInit (NumValue.ofInt n) ValueFormat.HEXADECIMAL) =
       Except.ok (NVOut.asStr ("0x" ++ intHexStr n))) ∧
    (∀ n : ℤ, formatNumericalValue
        (numericalValueInit (NumValue.ofInt n) ValueFormat.BINARY) =
       Except.ok (NVOut.asStr ("0b" ++ intBinStr n))) ∧
    (∀ n : ℤ, formatNumericalValue
        (numericalValueInit (NumValue.ofInt n) ValueFormat.SCIENTIFIC) =
       (floatOfInt n).map (fun v => NVOut.asStr (intENotation v))) ∧
    (∀ f, formatNumericalValue
        (numericalValueInit (NumValue.ofFloat f) ValueFormat.HEXADECIMAL) =
       Except.error PyErr.valueError) ∧
    (∀ f, formatNumericalValue
        (numericalValueInit (NumValue.ofFloat f) ValueFormat.BINARY) =
       Except.error PyErr.valueError) ∧
    formatNumericalValue
        (numericalValueInit (NumValue.ofInt 255) ValueFormat.HEXADECIMAL) =
      Except.ok (NVOut.asStr "0xff") ∧
    formatNumericalValue
        (numericalValueInit (NumValue.ofInt 5) ValueFormat.BINARY) =
      Except.ok (NVOut.asStr "0b101") ∧
    formatNumericalValue
        (numericalValueInit (NumValue.ofInt 5) ValueFormat.SCIENTIFIC) =
      Except.ok (NVOut.asStr "5.000000e+00") ∧
    formatNumericalValue
        (numericalValueInit (NumValue.ofInt 1000000500000000000000)
          ValueFormat.SCIENTIFIC) =
      Except.ok (NVOut.asStr "1.000001e+21") ∧
    formatNumericalValue
        (numericalValueInit (NumValue.ofInt (10 ^ 400))
          ValueFormat.SCIENTIFIC) =
      Except.error PyErr.overflowError := by
  refine ⟨fun v => rfl, fun v => rfl, fun n => rfl, fun n => rfl, fun n => rfl,
    fun f => rfl, fun f => rfl, by decide, by decide, by decide, by decide,
    by decide⟩

end Autosar
